import Mathlib

/-!
Shallow embedding of the moderation-notice relay server
(`server.js` of the stream-rn-moderated-chat repository):
the profanity matcher/redactor, the TTL'd flag-dedupe cache,
`postNotice`, and the `/webhook` handler, together with proofs of the
specification's claims about them.
-/

set_option maxRecDepth 8000

namespace ModerationRelay

/-- JS regex word-character class `\w = [A-Za-z0-9_]`, the basis of `\b`. -/
def isWordChar (c : Char) : Bool := c.isAlpha || c.isDigit || c == '_'

/-- ASCII-only case folding: how the `i` flag canonicalises input characters
against the lower-case ASCII letters of `PROFANITY_RE` / `REDACT_RE`.
A non-ASCII character is left unchanged and therefore never matches. -/
def lowerAscii (c : Char) : Char :=
  if c.isUpper then Char.ofNat (c.toNat + 32) else c

/-- The token alternation of `PROFANITY_RE` and `REDACT_RE`:
`\b(fuck|shit|bitch|asshole|dick|bastard|cunt)\b` (in lower case).
Both regexes use the same alternation, in this order. -/
def PROFANITY : List (List Char) :=
  [['f', 'u', 'c', 'k'],
   ['s', 'h', 'i', 't'],
   ['b', 'i', 't', 'c', 'h'],
   ['a', 's', 's', 'h', 'o', 'l', 'e'],
   ['d', 'i', 'c', 'k'],
   ['b', 'a', 's', 't', 'a', 'r', 'd'],
   ['c', 'u', 'n', 't']]

/-- Case-insensitively, `tok` matches the front of `l`. -/
def matchCI : List Char → List Char → Bool
  | [], _ => true
  | _ :: _, [] => false
  | t :: ts, c :: cs => (lowerAscii c == t) && matchCI ts cs

/-- The `\b` test at the position just after a candidate token:
end of input, or a non-word character follows. -/
def boundaryB : List Char → Bool
  | [] => true
  | c :: _ => !(isWordChar c)

/-- One attempt of `tok\b` anchored at the front of `l` (the leading `\b`
is the scanner's job: it only attempts at non-word positions). -/
def tokAttempt (tok l : List Char) : Bool :=
  matchCI tok l && boundaryB (l.drop tok.length)

/-- First token of the alternation that matches at the front of `l`, as its
length (JS alternation is first-alternative-wins; no token of the set is an
initial segment of another, so this is also the unique match). -/
def findTok (l : List Char) : Option Nat :=
  (PROFANITY.find? (fun tok => tokAttempt tok l)).map List.length

/-- The scanner of `String.prototype.replace` with the global regex
`REDACT_RE`: `skip` counts characters of the current match still to be
consumed (they were already emitted as the `m[0] + '***'` replacement),
and the `Bool` records whether the previous character was a word character
(the state needed for `\b`). -/
def redactScan : Nat → Bool → List Char → List Char
  | _, _, [] => []
  | k + 1, _, _ :: rest => redactScan k true rest
  | 0, true, c :: rest => c :: redactScan 0 (isWordChar c) rest
  | 0, false, c :: rest =>
    match findTok (c :: rest) with
    | some n => c :: '*' :: '*' :: '*' :: redactScan (n - 1) true rest
    | none => c :: redactScan 0 (isWordChar c) rest

/-- `const redact = (s = '') => s.replace(REDACT_RE, (m) => m[0] + '***');` -/
def redact (s : String) : String := String.mk (redactScan 0 false s.data)

/-- `PROFANITY_RE.test(text)`: some position of the text starts a whole-word,
case-insensitive occurrence of a profanity token. -/
def hasProfAux : Bool → List Char → Bool
  | _, [] => false
  | b, c :: rest => (!b && (findTok (c :: rest)).isSome) || hasProfAux (isWordChar c) rest

/-- `PROFANITY_RE.test(s)`. -/
def profanityTest (s : String) : Bool := hasProfAux false s.data

/-- `String.prototype.split` with a single-character separator
(`String(cid).split(':')`): splits at every occurrence of `sep`. -/
def splitCh (sep : Char) : List Char → List (List Char)
  | [] => [[]]
  | c :: rest =>
    if c == sep then [] :: splitCh sep rest
    else
      match splitCh sep rest with
      | [] => [[c]]
      | p :: ps => (c :: p) :: ps

/-- `s.split(sep)` for a one-character separator. -/
def jsSplit (sep : Char) (s : String) : List String :=
  (splitCh sep s.data).map String.mk

/-- `const FLAG_TTL_MS = 5 * 60 * 1000;` (5 minutes). -/
def FLAG_TTL_MS : Nat := 5 * 60 * 1000

/-- The module-level mutable dedupe state: `flaggedCache` (a `Set` of message
ids) and `cacheTimes` (a `Map` from message id to timestamp), modelled as
insertion-ordered association structures like the JS originals. -/
structure ModState where
  flaggedCache : List String
  cacheTimes : List (String × Nat)
deriving Repr, DecidableEq

/-- `Map.prototype.get` (`undefined` becomes `none`): value of the first —
and by construction only — entry with the given key. -/
def mapGet : List (String × Nat) → String → Option Nat
  | [], _ => none
  | e :: rest, k => if e.1 == k then some e.2 else mapGet rest k

/-- `Map.prototype.set`: overwrite an existing key in place, or append a new
entry in insertion order. -/
def mapSet (m : List (String × Nat)) (k : String) (v : Nat) : List (String × Nat) :=
  if (mapGet m k).isSome then
    m.map (fun e => if e.1 == k then (k, v) else e)
  else m ++ [(k, v)]

/-- `Map.prototype.delete`. -/
def mapDelete (m : List (String × Nat)) (k : String) : List (String × Nat) :=
  m.filter (fun e => !(e.1 == k))

/-- `Set.prototype.add`. -/
def setAdd (s : List String) (k : String) : List String :=
  if s.contains k then s else s ++ [k]

/-- `Set.prototype.delete`. -/
def setDelete (s : List String) (k : String) : List String :=
  s.filter (fun e => !(e == k))

/-- `function rememberFlagged(id) { flaggedCache.add(id); cacheTimes.set(id, Date.now()); }`
`now` stands for the `Date.now()` reading. -/
def rememberFlagged (now : Nat) (st : ModState) (id : String) : ModState :=
  { flaggedCache := setAdd st.flaggedCache id
    cacheTimes := mapSet st.cacheTimes id now }

/-- `function wasFlaggedRecently(id)`. Note `if (!t) return false;` treats a
missing entry and a stored timestamp `0` alike (both falsy), and performs no
eviction in either case; eviction happens only on the
`Date.now() - t > FLAG_TTL_MS` path. The subtraction is done in `Int`,
mirroring JS number subtraction. -/
def wasFlaggedRecently (now : Nat) (st : ModState) (id : String) : Bool × ModState :=
  match mapGet st.cacheTimes id with
  | none => (false, st)
  | some t =>
    if t = 0 then (false, st)
    else if (now : Int) - (t : Int) > (FLAG_TTL_MS : Int) then
      (false, { flaggedCache := setDelete st.flaggedCache id
                cacheTimes := mapDelete st.cacheTimes id })
    else (true, st)

/-- The fields of a webhook `message` object that the server reads.
An absent (`undefined`) field is `none`. -/
structure Msg where
  id : Option String
  cid : Option String
  userId : Option String
  text : Option String
deriving Repr, DecidableEq

/-- JS falsiness of a possibly-absent string value: `undefined` or `""`. -/
def falsyStr : Option String → Bool
  | none => true
  | some s => s == ""

/-- The outbound `ch.sendMessage({ text, type: 'system', user_id: 'system-bot' })`
call, together with the channel handle `serverClient.channel(type, chId)` it is
sent on. `chId` is `none` when the destructured `chId` was `undefined`. -/
structure Notice where
  chType : String
  chId : Option String
  text : String
  userId : String
deriving Repr, DecidableEq

/-- The notice text: `⚠️ A message from @${author} was flagged by moderation.\n“${preview}”`
with `author = msg?.user?.id || 'someone'` and
`preview = redact((msg?.text || '').slice(0, 120))`. -/
def noticeText (msg : Msg) : String :=
  let author := if falsyStr msg.userId then "someone" else msg.userId.getD ""
  let preview := redact (String.mk ((msg.text.getD "").data.take 120))
  "⚠️ A message from @" ++ author ++ " was flagged by moderation.\n“" ++ preview ++ "”"

/-- Result of one `postNotice` call: the dedupe state afterwards, the notice
that was delivered (if any), and whether the returned promise rejected. -/
structure PostResult where
  st : ModState
  notice : Option Notice
  threw : Bool
deriving Repr, DecidableEq

/-- `async function postNotice(msg)`. `sendOk` models whether the outbound
`ch.sendMessage` call succeeds; when it fails, the state change made by
`rememberFlagged` (which ran first) is kept and the promise rejects. -/
def postNotice (now : Nat) (sendOk : Bool) (st : ModState) (msg : Msg) : PostResult :=
  if falsyStr msg.id = true ∨ falsyStr msg.cid = true then ⟨st, none, false⟩
  else
    match wasFlaggedRecently now st (msg.id.getD "") with
    | (true, st1) => ⟨st1, none, false⟩
    | (false, st1) =>
      -- `rememberFlagged` runs before the `sendMessage` I/O, so its state
      -- change is kept even when the delivery fails.
      if sendOk then
        ⟨rememberFlagged now st1 (msg.id.getD ""),
         some ⟨(jsSplit ':' (msg.cid.getD "")).headD "",
               (jsSplit ':' (msg.cid.getD ""))[1]?,
               noticeText msg, "system-bot"⟩,
         false⟩
      else ⟨rememberFlagged now st1 (msg.id.getD ""), none, true⟩

/-- The `item` object of an AI-moderation-queue payload. -/
structure AiItem where
  message_id : Option String
  recommended_action : Option String
deriving Repr, DecidableEq

/-- A parsed webhook payload: `{type, message?, item?}`. -/
structure Payload where
  type : Option String
  message : Option Msg
  item : Option AiItem
deriving Repr, DecidableEq

/-- The inbound request body: either raw bytes that fail `JSON.parse`, or a
parsed payload. -/
inductive WebhookInput where
  | malformed
  | parsed (p : Payload)
deriving Repr, DecidableEq

/-- Outcome of the collaborator call `serverClient.getMessage(id)`: the call
throws, or resolves with a possibly-absent `message`. -/
inductive GetMsgResult where
  | failure
  | success (message : Option Msg)
deriving Repr, DecidableEq

/-- Behaviour of the collaborator (chat backend) during one webhook request:
whether `serverClient.flagMessage` succeeds, whether `ch.sendMessage`
succeeds, and what `serverClient.getMessage` returns. -/
structure WebhookEnv where
  flagOk : Bool
  sendOk : Bool
  getMsg : GetMsgResult
deriving Repr, DecidableEq

/-- The handler's response and observable effects: HTTP status, body text,
dedupe state afterwards, and the notice delivered (if any). -/
structure HookResult where
  status : Nat
  body : String
  st : ModState
  notice : Option Notice
deriving Repr, DecidableEq

/-- `undefined` message, used where a guard already ruled the case out. -/
def emptyMsg : Msg := ⟨none, none, none, none⟩

/-- `app.post('/webhook', ...)`: parse guard, system-bot loop guard, the
`message.flagged` branch, the `message.new` heuristic-fallback branch (where
`flagMessage` and `postNotice` share one `try`), the AI-queue branch, and the
final `ignored` acknowledgment. All collaborator failures are caught. -/
def handleWebhook (now : Nat) (env : WebhookEnv) (st : ModState) (input : WebhookInput) :
    HookResult :=
  match input with
  | .malformed => ⟨200, "ignored", st, none⟩
  | .parsed p =>
    if p.message.bind Msg.userId = some "system-bot" then ⟨200, "ignored", st, none⟩
    else if p.type = some "message.flagged" ∧ falsyStr (p.message.bind Msg.id) = false then
      ⟨200, "ok", (postNotice now env.sendOk st (p.message.getD emptyMsg)).st,
       (postNotice now env.sendOk st (p.message.getD emptyMsg)).notice⟩
    else if p.type = some "message.new" ∧ falsyStr (p.message.bind Msg.id) = false
        ∧ (p.message.bind Msg.text).isSome = true then
      if profanityTest ((p.message.getD emptyMsg).text.getD "") = true then
        match wasFlaggedRecently now st ((p.message.getD emptyMsg).id.getD "") with
        | (true, st1) => ⟨200, "ok", st1, none⟩
        | (false, st1) =>
          -- `flagMessage` and `postNotice` share a single `try`:
          -- when `flagMessage` throws, `postNotice` is never reached.
          if env.flagOk then
            ⟨200, "ok", (postNotice now env.sendOk st1 (p.message.getD emptyMsg)).st,
             (postNotice now env.sendOk st1 (p.message.getD emptyMsg)).notice⟩
          else ⟨200, "ok", st1, none⟩
      else ⟨200, "ok", st, none⟩
    else
      match p.item with
      | some it =>
        if (it.recommended_action = some "flag" ∨ it.recommended_action = some "remove")
            ∧ falsyStr it.message_id = false then
          match env.getMsg with
          | .failure => ⟨200, "ok", st, none⟩
          | .success none => ⟨200, "ok", st, none⟩
          | .success (some gm) =>
            if gm.userId = some "system-bot" then ⟨200, "ok", st, none⟩
            else
              ⟨200, "ok", (postNotice now env.sendOk st gm).st,
               (postNotice now env.sendOk st gm).notice⟩
        else ⟨200, "ignored", st, none⟩
      | none => ⟨200, "ignored", st, none⟩

/-- Spec-side notion (claim C8 wording): `m` is a case-insensitive occurrence
of the token `tok`. -/
def ciMatchesTok (m tok : List Char) : Prop := m.map lowerAscii = tok

/-- Spec-side `whole-word` condition after a match: the occurrence is followed
by the end of the text or by a non-word character. -/
def okAfter (l : List Char) : Prop :=
  l = [] ∨ ∃ c t, l = c :: t ∧ isWordChar c = false

/-- Spec-side: a whole-word, case-insensitive occurrence of some token of the
fixed profanity set starts at the front of `l`. -/
def occursAt (l : List Char) : Prop :=
  ∃ tok ∈ PROFANITY, ∃ m r, l = m ++ r ∧ ciMatchesTok m tok ∧ okAfter r

/-- The redaction specification, modelled from the words of claim C8: each
whole-word, case-insensitive occurrence of a token is replaced by its first
character followed by three literal asterisks (a replacement of exactly 4
characters), and every character at which no such occurrence starts is left
unchanged. The `Bool` records whether the previous character was a word
character (an occurrence is whole-word only if it does not directly follow a
word character). -/
inductive RedactsTo : Bool → List Char → List Char → Prop where
  | nil (b : Bool) : RedactsTo b [] []
  | replace (tok : List Char) (c : Char) (ms rest out : List Char) :
      tok ∈ PROFANITY → ciMatchesTok (c :: ms) tok → okAfter rest →
      RedactsTo true rest out →
      RedactsTo false ((c :: ms) ++ rest) (c :: '*' :: '*' :: '*' :: out)
  | keep (b : Bool) (c : Char) (rest out : List Char) :
      (b = true ∨ ¬ occursAt (c :: rest)) →
      RedactsTo (isWordChar c) rest out →
      RedactsTo b (c :: rest) (c :: out)

/-! ### Facts about the token set and the scanner -/

theorem profanity_wf :
    ∀ tok ∈ PROFANITY, 2 ≤ tok.length ∧ ∀ c ∈ tok, isWordChar c = true := by decide

theorem lowerAscii_wordChar {c t : Char} (h : lowerAscii c = t) (ht : isWordChar t = true) :
    isWordChar c = true := by
  unfold lowerAscii at h
  by_cases hu : c.isUpper = true
  · simp [isWordChar, Char.isAlpha, hu]
  · rw [if_neg hu] at h
    subst h
    exact ht

theorem redactScan_nil (k : Nat) (b : Bool) : redactScan k b [] = [] := by
  cases k <;> cases b <;> rfl

theorem redactScan_succ (k : Nat) (b : Bool) (c : Char) (rest : List Char) :
    redactScan (k + 1) b (c :: rest) = redactScan k true rest := rfl

theorem redactScan_true (c : Char) (rest : List Char) :
    redactScan 0 true (c :: rest) = c :: redactScan 0 (isWordChar c) rest := rfl

theorem redactScan_false (c : Char) (rest : List Char) :
    redactScan 0 false (c :: rest) =
      match findTok (c :: rest) with
      | some n => c :: '*' :: '*' :: '*' :: redactScan (n - 1) true rest
      | none => c :: redactScan 0 (isWordChar c) rest := rfl

theorem redactScan_skip : ∀ (k : Nat) (l : List Char),
    redactScan k true l = redactScan 0 true (l.drop k) := by
  intro k
  induction k with
  | zero => intro l; rw [List.drop_zero]
  | succ k ih =>
    intro l
    cases l with
    | nil => rw [redactScan_nil, List.drop_nil, redactScan_nil]
    | cons c rest => rw [redactScan_succ, ih, List.drop_succ_cons]

theorem redactScan_false_none {c : Char} {rest : List Char} (h : findTok (c :: rest) = none) :
    redactScan 0 false (c :: rest) = c :: redactScan 0 (isWordChar c) rest := by
  rw [redactScan_false, h]

theorem redactScan_false_some {c : Char} {rest : List Char} {n : Nat}
    (h : findTok (c :: rest) = some n) :
    redactScan 0 false (c :: rest) =
      c :: '*' :: '*' :: '*' :: redactScan 0 true (rest.drop (n - 1)) := by
  rw [redactScan_false, h]
  show c :: '*' :: '*' :: '*' :: redactScan (n - 1) true rest = _
  rw [redactScan_skip]

theorem redactScan_cons_head (b : Bool) (c : Char) (rest : List Char) :
    ∃ t, redactScan 0 b (c :: rest) = c :: t := by
  cases b with
  | false =>
    cases h : findTok (c :: rest) with
    | none => exact ⟨_, redactScan_false_none h⟩
    | some n => exact ⟨_, redactScan_false_some h⟩
  | true => exact ⟨_, redactScan_true c rest⟩

theorem boundaryB_redactScan (b : Bool) (l : List Char) :
    boundaryB (redactScan 0 b l) = boundaryB l := by
  cases l with
  | nil => rw [redactScan_nil]
  | cons c rest =>
    obtain ⟨t, ht⟩ := redactScan_cons_head b c rest
    rw [ht]
    rfl

theorem matchCI_take : ∀ (tok l : List Char), matchCI tok l = true →
    tok.length ≤ l.length ∧ (l.take tok.length).map lowerAscii = tok := by
  intro tok
  induction tok with
  | nil => intro l _; simp
  | cons t ts ih =>
    intro l h
    cases l with
    | nil => simp [matchCI] at h
    | cons c cs =>
      simp only [matchCI, Bool.and_eq_true] at h
      have hct : lowerAscii c = t := beq_iff_eq.mp h.1
      obtain ⟨hle, htake⟩ := ih cs h.2
      refine ⟨by simpa using Nat.succ_le_succ hle, ?_⟩
      simp [List.take_succ_cons, htake, hct]

theorem matchCI_append : ∀ (m r tok : List Char), m.map lowerAscii = tok →
    matchCI tok (m ++ r) = true := by
  intro m
  induction m with
  | nil =>
    intro r tok h
    subst h
    rfl
  | cons c ms ih =>
    intro r tok h
    subst h
    simp only [List.map_cons, List.cons_append, matchCI, Bool.and_eq_true]
    exact ⟨beq_self_eq_true _, ih r _ rfl⟩

theorem tokAttempt_cons (t : Char) (ts : List Char) (c : Char) (l : List Char) :
    tokAttempt (t :: ts) (c :: l) = ((lowerAscii c == t) && tokAttempt ts l) := by
  simp [tokAttempt, matchCI, List.drop_succ_cons, Bool.and_assoc]

theorem tokAttempt_iff (tok l : List Char) :
    tokAttempt tok l = true ↔ ∃ m r, l = m ++ r ∧ ciMatchesTok m tok ∧ okAfter r := by
  constructor
  · intro h
    rw [tokAttempt, Bool.and_eq_true] at h
    obtain ⟨hm, hb⟩ := h
    obtain ⟨hle, htake⟩ := matchCI_take tok l hm
    refine ⟨l.take tok.length, l.drop tok.length, (List.take_append_drop _ _).symm, htake, ?_⟩
    cases hd : l.drop tok.length with
    | nil => exact Or.inl rfl
    | cons d t2 =>
      rw [hd] at hb
      exact Or.inr ⟨d, t2, rfl, by simpa [boundaryB] using hb⟩
  · rintro ⟨m, r, rfl, hm, hr⟩
    rw [tokAttempt, Bool.and_eq_true]
    refine ⟨matchCI_append m r tok hm, ?_⟩
    have hlen : tok.length = m.length := by rw [← hm]; simp
    rw [hlen, List.drop_left]
    cases hr with
    | inl h => subst h; rfl
    | inr h =>
      obtain ⟨c2, t2, rfl, hw⟩ := h
      simp [boundaryB, hw]

theorem findTok_none_iff (l : List Char) : findTok l = none ↔ ¬ occursAt l := by
  rw [findTok, Option.map_eq_none', List.find?_eq_none]
  constructor
  · rintro h ⟨tok, htok, hocc⟩
    exact h tok htok ((tokAttempt_iff tok l).mpr hocc)
  · intro h tok htok hatt
    exact h ⟨tok, htok, (tokAttempt_iff tok l).mp hatt⟩

theorem findTok_some_elim {l : List Char} {n : Nat} (h : findTok l = some n) :
    ∃ tok, tok ∈ PROFANITY ∧ tokAttempt tok l = true ∧ n = tok.length := by
  rw [findTok, Option.map_eq_some'] at h
  obtain ⟨tok, hfind, hlen⟩ := h
  have hp := List.find?_some (p := fun tk => tokAttempt tk l) (a := tok) (l := PROFANITY) hfind
  exact ⟨tok, List.mem_of_find?_eq_some hfind, by simpa using hp, hlen.symm⟩

theorem findTok_nonword {d : Char} (l : List Char) (hd : isWordChar d = false) :
    findTok (d :: l) = none := by
  rw [findTok, Option.map_eq_none', List.find?_eq_none]
  intro tok htok hatt
  obtain ⟨hlen, hw⟩ := profanity_wf tok htok
  cases tok with
  | nil => simp at hlen
  | cons t ts =>
    rw [tokAttempt_cons, Bool.and_eq_true] at hatt
    have h1 : isWordChar d = true := lowerAscii_wordChar (beq_iff_eq.mp hatt.1) (hw t (by simp))
    rw [hd] at h1
    exact Bool.false_ne_true h1

theorem findTok_star (c : Char) (l : List Char) : findTok (c :: '*' :: l) = none := by
  rw [findTok, Option.map_eq_none', List.find?_eq_none]
  intro tok htok hatt
  obtain ⟨hlen, hw⟩ := profanity_wf tok htok
  cases tok with
  | nil => simp at hlen
  | cons t ts =>
    cases ts with
    | nil => simp at hlen
    | cons t2 ts2 =>
      rw [tokAttempt_cons, Bool.and_eq_true] at hatt
      rw [tokAttempt_cons, Bool.and_eq_true] at hatt
      have h2 : lowerAscii '*' = t2 := beq_iff_eq.mp hatt.2.1
      have h3 : isWordChar t2 = true := hw t2 (by simp)
      rw [← h2, show lowerAscii '*' = '*' from by decide] at h3
      exact absurd h3 (by decide)

theorem tokAttempt_redactScan : ∀ tok : List Char, (∀ c ∈ tok, isWordChar c = true) →
    ∀ l : List Char, tokAttempt tok (redactScan 0 true l) = tokAttempt tok l := by
  intro tok
  induction tok with
  | nil =>
    intro _ l
    simp [tokAttempt, matchCI, boundaryB_redactScan]
  | cons t ts ih =>
    intro hw l
    cases l with
    | nil => rw [redactScan_nil]
    | cons c r =>
      rw [redactScan_true, tokAttempt_cons, tokAttempt_cons]
      by_cases hct : lowerAscii c = t
      · have hcw : isWordChar c = true := lowerAscii_wordChar hct (hw t (by simp))
        rw [hcw, ih (fun x hx => hw x (by simp [hx])) r]
      · rw [beq_eq_false_iff_ne.mpr hct, Bool.false_and, Bool.false_and]

theorem find?_congr_local {α : Type} (p q : α → Bool) :
    ∀ l : List α, (∀ a ∈ l, p a = q a) → l.find? p = l.find? q := by
  intro l
  induction l with
  | nil => intro _; rfl
  | cons a tl ih =>
    intro h
    have ha := h a (List.mem_cons_self a tl)
    simp only [List.find?, ha]
    cases hqa : q a with
    | false => exact ih (fun x hx => h x (List.mem_cons_of_mem a hx))
    | true => rfl

theorem findTok_redactScan (c : Char) (rest : List Char) :
    findTok (c :: redactScan 0 (isWordChar c) rest) = findTok (c :: rest) := by
  by_cases hwc : isWordChar c = true
  · rw [hwc, findTok, findTok]
    congr 1
    apply find?_congr_local
    intro tok htok
    obtain ⟨hlen, hwt⟩ := profanity_wf tok htok
    cases tok with
    | nil => simp at hlen
    | cons t ts =>
      rw [tokAttempt_cons, tokAttempt_cons,
        tokAttempt_redactScan ts (fun x hx => hwt x (by simp [hx])) rest]
  · have hw' : isWordChar c = false := by simpa using hwc
    rw [hw', findTok_nonword _ hw', findTok_nonword _ hw']

theorem redactScan_idem_aux : ∀ N : Nat, ∀ l : List Char, l.length ≤ N → ∀ b : Bool,
    redactScan 0 b (redactScan 0 b l) = redactScan 0 b l := by
  intro N
  induction N with
  | zero =>
    intro l hl b
    have hnil : l = [] := List.length_eq_zero.mp (Nat.le_zero.mp hl)
    subst hnil
    rw [redactScan_nil, redactScan_nil]
  | succ N ih =>
    intro l hl b
    cases l with
    | nil => rw [redactScan_nil, redactScan_nil]
    | cons c rest =>
      have hr : rest.length ≤ N := Nat.le_of_succ_le_succ (by simpa using hl)
      cases b with
      | true => rw [redactScan_true, redactScan_true, ih rest hr (isWordChar c)]
      | false =>
        cases hf : findTok (c :: rest) with
        | none =>
          rw [redactScan_false_none hf,
            redactScan_false_none (by rw [findTok_redactScan]; exact hf),
            ih rest hr (isWordChar c)]
        | some n =>
          obtain ⟨tok, htok, hatt, hn⟩ := findTok_some_elim hf
          obtain ⟨hlen2, hwt⟩ := profanity_wf tok htok
          have hcw : isWordChar c = true := by
            cases tok with
            | nil => simp at hlen2
            | cons t ts =>
              rw [tokAttempt_cons, Bool.and_eq_true] at hatt
              exact lowerAscii_wordChar (beq_iff_eq.mp hatt.1) (hwt t (by simp))
          obtain ⟨tok2, htok2, hatt2, hn2⟩ := findTok_some_elim hf
          have hatt2' := hatt2
          rw [tokAttempt, Bool.and_eq_true] at hatt2'
          have hdrop : (c :: rest).drop tok2.length = rest.drop (n - 1) := by
            rw [← hn2]
            conv_lhs => rw [show n = (n - 1) + 1 from by omega]
            rw [List.drop_succ_cons]
          have hb : boundaryB (rest.drop (n - 1)) = true := by
            rw [← hdrop]
            exact hatt2'.2
          rw [redactScan_false_some hf,
            redactScan_false_none (findTok_star c _), hcw,
            redactScan_true, show isWordChar '*' = false from by decide,
            redactScan_false_none (findTok_nonword _ (by decide)),
            show isWordChar '*' = false from by decide,
            redactScan_false_none (findTok_nonword _ (by decide)),
            show isWordChar '*' = false from by decide]
          refine congrArg (c :: '*' :: '*' :: '*' :: ·) ?_
          cases hR : rest.drop (n - 1) with
          | nil => rw [redactScan_nil, redactScan_nil]
          | cons d t =>
            have hdw : isWordChar d = false := by
              rw [hR] at hb
              simpa [boundaryB] using hb
            have htlen : t.length ≤ N := by
              have h1 : (rest.drop (n - 1)).length ≤ rest.length := by
                rw [List.length_drop]
                omega
              rw [hR] at h1
              simp only [List.length_cons] at h1
              omega
            rw [redactScan_true, hdw,
              redactScan_false_none (findTok_nonword _ hdw), hdw,
              ih t htlen false]

/-- Claim C9: `redact` is idempotent — `redact(redact(s)) = redact(s)` for every
string `s`; applying redaction to already-redacted text changes nothing. -/
theorem redact_idempotent (s : String) : redact (redact s) = redact s := by
  show String.mk (redactScan 0 false (redactScan 0 false s.data)) =
    String.mk (redactScan 0 false s.data)
  exact congrArg String.mk (redactScan_idem_aux s.data.length s.data (Nat.le_refl _) false)

theorem redactsTo_aux : ∀ N : Nat, ∀ l : List Char, l.length ≤ N → ∀ b : Bool,
    RedactsTo b l (redactScan 0 b l) := by
  intro N
  induction N with
  | zero =>
    intro l hl b
    have hnil : l = [] := List.length_eq_zero.mp (Nat.le_zero.mp hl)
    subst hnil
    rw [redactScan_nil]
    exact RedactsTo.nil b
  | succ N ih =>
    intro l hl b
    cases l with
    | nil =>
      rw [redactScan_nil]
      exact RedactsTo.nil b
    | cons c rest =>
      have hr : rest.length ≤ N := Nat.le_of_succ_le_succ (by simpa using hl)
      cases b with
      | true =>
        rw [redactScan_true]
        exact RedactsTo.keep true c rest _ (Or.inl rfl) (ih rest hr (isWordChar c))
      | false =>
        cases hf : findTok (c :: rest) with
        | none =>
          rw [redactScan_false_none hf]
          exact RedactsTo.keep false c rest _ (Or.inr ((findTok_none_iff _).mp hf))
            (ih rest hr (isWordChar c))
        | some n =>
          obtain ⟨tok, htok, hatt, hn⟩ := findTok_some_elim hf
          obtain ⟨hlen2, hwt⟩ := profanity_wf tok htok
          have hatt' := hatt
          rw [tokAttempt, Bool.and_eq_true] at hatt'
          obtain ⟨hmc, hbd⟩ := hatt'
          obtain ⟨hle, htake⟩ := matchCI_take tok (c :: rest) hmc
          have hdecomp : c :: rest = (c :: rest.take (n - 1)) ++ rest.drop (n - 1) := by
            have h1 := List.take_append_drop n (c :: rest)
            rw [show n = (n - 1) + 1 from by omega, List.take_succ_cons,
              List.drop_succ_cons] at h1
            exact h1.symm
          have hci : ciMatchesTok (c :: rest.take (n - 1)) tok := by
            unfold ciMatchesTok
            have h2 : (c :: rest).take tok.length = c :: rest.take (n - 1) := by
              rw [← hn]
              conv_lhs => rw [show n = (n - 1) + 1 from by omega]
              rw [List.take_succ_cons]
            rw [← h2]
            exact htake
          have hok : okAfter (rest.drop (n - 1)) := by
            have hdrop : (c :: rest).drop tok.length = rest.drop (n - 1) := by
              rw [← hn]
              conv_lhs => rw [show n = (n - 1) + 1 from by omega]
              rw [List.drop_succ_cons]
            rw [hdrop] at hbd
            cases hE : rest.drop (n - 1) with
            | nil => exact Or.inl rfl
            | cons d t =>
              rw [hE] at hbd
              exact Or.inr ⟨d, t, rfl, by simpa [boundaryB] using hbd⟩
          have hrec : RedactsTo true (rest.drop (n - 1)) (redactScan 0 true (rest.drop (n - 1))) := by
            refine ih (rest.drop (n - 1)) ?_ true
            rw [List.length_drop]
            omega
          rw [redactScan_false_some hf, hdecomp]
          exact RedactsTo.replace tok c (rest.take (n - 1)) (rest.drop (n - 1)) _ htok hci hok hrec

/-- Claim C8: `redact` realises the redaction specification: every whole-word,
case-insensitive occurrence of a profanity token is replaced by its first
character followed by three literal asterisks (a 4-character replacement,
never shorter), and every position at which no such occurrence starts is
copied unchanged. `redact` is a total Lean function, hence deterministic and
side-effect free. -/
theorem redact_meets_spec (s : String) : RedactsTo false s.data (redact s).data := by
  show RedactsTo false s.data (redactScan 0 false s.data)
  exact redactsTo_aux s.data.length s.data (Nat.le_refl _) false

/-! ### Facts about the dedupe cache -/

theorem mapGet_map_update : ∀ (m : List (String × Nat)) (k : String) (v : Nat),
    (mapGet m k).isSome = true →
    mapGet (m.map (fun e => if e.1 == k then (k, v) else e)) k = some v := by
  intro m k v
  induction m with
  | nil => intro h; simp [mapGet] at h
  | cons a tl ih =>
    intro h
    by_cases hak : (a.1 == k) = true
    · simp [mapGet, hak]
    · have h' : (mapGet tl k).isSome = true := by simpa [mapGet, hak] using h
      simpa [mapGet, hak] using ih h'

theorem mapGet_append_new : ∀ (m : List (String × Nat)) (k : String) (v : Nat),
    mapGet m k = none → mapGet (m ++ [(k, v)]) k = some v := by
  intro m k v
  induction m with
  | nil => intro _; simp [mapGet]
  | cons a tl ih =>
    intro h
    by_cases hak : (a.1 == k) = true
    · simp [mapGet, hak] at h
    · have h' : mapGet tl k = none := by simpa [mapGet, hak] using h
      simpa [mapGet, hak] using ih h'

theorem mapGet_mapSet_self (m : List (String × Nat)) (k : String) (v : Nat) :
    mapGet (mapSet m k v) k = some v := by
  unfold mapSet
  by_cases h : (mapGet m k).isSome = true
  · rw [if_pos h]
    exact mapGet_map_update m k v h
  · rw [if_neg h]
    exact mapGet_append_new m k v (Option.not_isSome_iff_eq_none.mp h)

theorem mapGet_mapDelete_self : ∀ (m : List (String × Nat)) (k : String),
    mapGet (mapDelete m k) k = none := by
  intro m k
  induction m with
  | nil => rfl
  | cons a tl ih =>
    unfold mapDelete at *
    by_cases hak : (a.1 == k) = true
    · simpa [List.filter_cons, hak] using ih
    · simpa [List.filter_cons, hak, mapGet] using ih

theorem mapGet_rememberFlagged (now : Nat) (st : ModState) (id : String) :
    mapGet (rememberFlagged now st id).cacheTimes id = some now := by
  unfold rememberFlagged
  exact mapGet_mapSet_self st.cacheTimes id now

/-- Equation: a missing cache entry yields `(false, st)` with no eviction. -/
theorem wasFlaggedRecently_none {now : Nat} {st : ModState} {id : String}
    (h : mapGet st.cacheTimes id = none) :
    wasFlaggedRecently now st id = (false, st) := by
  unfold wasFlaggedRecently
  rw [h]

/-- Equation: a stored timestamp `0` is falsy, so the lookup yields
`(false, st)` with no eviction. -/
theorem wasFlaggedRecently_zero {now : Nat} {st : ModState} {id : String}
    (h : mapGet st.cacheTimes id = some 0) :
    wasFlaggedRecently now st id = (false, st) := by
  unfold wasFlaggedRecently
  rw [h]
  show (if (0 : Nat) = 0 then ((false, st) : Bool × ModState)
    else if (now : Int) - ((0 : Nat) : Int) > (FLAG_TTL_MS : Int) then
      (false, ModState.mk (setDelete st.flaggedCache id) (mapDelete st.cacheTimes id))
    else (true, st)) = _
  rw [if_pos rfl]

/-- Equation: a nonzero entry older than the TTL is evicted from both
structures and the lookup returns false. -/
theorem wasFlaggedRecently_expired {now : Nat} {st : ModState} {id : String} {t : Nat}
    (h : mapGet st.cacheTimes id = some t) (h0 : t ≠ 0)
    (hgt : (now : Int) - (t : Int) > (FLAG_TTL_MS : Int)) :
    wasFlaggedRecently now st id =
      (false, ModState.mk (setDelete st.flaggedCache id) (mapDelete st.cacheTimes id)) := by
  unfold wasFlaggedRecently
  rw [h]
  show (if t = 0 then ((false, st) : Bool × ModState)
    else if (now : Int) - (t : Int) > (FLAG_TTL_MS : Int) then
      (false, ModState.mk (setDelete st.flaggedCache id) (mapDelete st.cacheTimes id))
    else (true, st)) = _
  rw [if_neg h0, if_pos hgt]

/-- Equation: a nonzero entry within the TTL yields `(true, st)`. -/
theorem wasFlaggedRecently_live {now : Nat} {st : ModState} {id : String} {t : Nat}
    (h : mapGet st.cacheTimes id = some t) (h0 : t ≠ 0)
    (hle : ¬ (now : Int) - (t : Int) > (FLAG_TTL_MS : Int)) :
    wasFlaggedRecently now st id = (true, st) := by
  unfold wasFlaggedRecently
  rw [h]
  show (if t = 0 then ((false, st) : Bool × ModState)
    else if (now : Int) - (t : Int) > (FLAG_TTL_MS : Int) then
      (false, ModState.mk (setDelete st.flaggedCache id) (mapDelete st.cacheTimes id))
    else (true, st)) = _
  rw [if_neg h0, if_neg hle]

/-- After `rememberFlagged` at a nonzero clock reading, a lookup within the
TTL window returns `true` and leaves the state unchanged. -/
theorem wasFlaggedRecently_after_remember (now now2 : Nat) (st : ModState) (id : String)
    (hnz : now ≠ 0) (hwin : (now2 : Int) - (now : Int) ≤ (FLAG_TTL_MS : Int)) :
    wasFlaggedRecently now2 (rememberFlagged now st id) id =
      (true, rememberFlagged now st id) :=
  wasFlaggedRecently_live (mapGet_rememberFlagged now st id) hnz (by omega)

/-! ### Facts about the `split(':')` embedding -/

theorem splitCh_sep_append (sep : Char) : ∀ (pre rest : List Char), sep ∉ pre →
    splitCh sep (pre ++ sep :: rest) = pre :: splitCh sep rest := by
  intro pre
  induction pre with
  | nil =>
    intro rest _
    simp [splitCh]
  | cons c p ih =>
    intro rest hnotin
    have hcs : (c == sep) = false := by
      refine beq_eq_false_iff_ne.mpr ?_
      intro hEq
      exact hnotin (by simp [hEq])
    simp only [List.cons_append, splitCh, hcs, Bool.false_eq_true, if_false, List.append_eq]
    rw [ih rest (fun hmem => hnotin (by simp [hmem]))]

theorem splitCh_head (sep : Char) : ∀ l : List Char,
    ∃ tl, splitCh sep l = l.takeWhile (fun c => !(c == sep)) :: tl := by
  intro l
  induction l with
  | nil => exact ⟨[], rfl⟩
  | cons c rest ih =>
    by_cases hcs : (c == sep) = true
    · exact ⟨splitCh sep rest, by simp [splitCh, List.takeWhile_cons, hcs]⟩
    · obtain ⟨tl, htl⟩ := ih
      refine ⟨tl, ?_⟩
      simp only [splitCh, hcs, Bool.false_eq_true, if_false, htl, List.takeWhile_cons]
      simp [hcs]

/-! ### Reduction lemmas for `postNotice` -/

theorem falsyStr_some_ne {s : String} (h : s ≠ "") : falsyStr (some s) = false := by
  simp [falsyStr, h]

theorem postNotice_fresh (now : Nat) (sendOk : Bool) (st : ModState) (msg : Msg)
    (id cid : String)
    (hid : msg.id = some id) (hid' : id ≠ "")
    (hcid : msg.cid = some cid) (hcid' : cid ≠ "")
    (hfresh : (wasFlaggedRecently now st id).1 = false) :
    postNotice now sendOk st msg =
      if sendOk then
        ⟨rememberFlagged now (wasFlaggedRecently now st id).2 id,
         some ⟨(jsSplit ':' cid).headD "", (jsSplit ':' cid)[1]?, noticeText msg, "system-bot"⟩,
         false⟩
      else ⟨rememberFlagged now (wasFlaggedRecently now st id).2 id, none, true⟩ := by
  have hcond : ¬ (falsyStr msg.id = true ∨ falsyStr msg.cid = true) := by
    simp [hid, hcid, falsyStr_some_ne hid', falsyStr_some_ne hcid']
  unfold postNotice
  rw [if_neg hcond]
  simp only [hid, hcid, Option.getD_some]
  rcases hE : wasFlaggedRecently now st id with ⟨b, st1⟩
  rw [hE] at hfresh
  simp only at hfresh
  subst hfresh
  simp

theorem postNotice_already (now : Nat) (sendOk : Bool) (st : ModState) (msg : Msg)
    (id : String)
    (hid : msg.id = some id) (hid' : id ≠ "")
    (hcidok : falsyStr msg.cid = false)
    (hfl : (wasFlaggedRecently now st id).1 = true) :
    postNotice now sendOk st msg = ⟨(wasFlaggedRecently now st id).2, none, false⟩ := by
  have hcond : ¬ (falsyStr msg.id = true ∨ falsyStr msg.cid = true) := by
    simp [hid, falsyStr_some_ne hid', hcidok]
  unfold postNotice
  rw [if_neg hcond]
  simp only [hid, Option.getD_some]
  rcases hE : wasFlaggedRecently now st id with ⟨b, st1⟩
  rw [hE] at hfl
  simp only at hfl
  subst hfl
  simp

/-! ### Claims about Flag Memory (C4, C10) -/

/-- Claim C4, counterexample: with the single entry `("m", 0)` in the cache, at
clock reading 100 an entry exists and `100 - 0 ≤ TTL`, so the claim demands
`true`; the code returns `false` (the falsy stored timestamp is treated as
absent). And at clock reading `10^9` the entry has expired, so the claim
demands eviction before returning false; the code returns `false` with the
entry still in place. -/
theorem wasFlaggedRecently_claim_cex :
    (mapGet (ModState.mk ["m"] [("m", 0)]).cacheTimes "m" = some 0) ∧
    ((100 : Int) - (0 : Int) ≤ (FLAG_TTL_MS : Int)) ∧
    ((wasFlaggedRecently 100 (ModState.mk ["m"] [("m", 0)]) "m").1 = false) ∧
    ((1000000000 : Int) - (0 : Int) > (FLAG_TTL_MS : Int)) ∧
    (wasFlaggedRecently 1000000000 (ModState.mk ["m"] [("m", 0)]) "m" =
      (false, ModState.mk ["m"] [("m", 0)])) := by
  decide

/-- Claim C4 (amended): `was_recently_flagged(id)` returns true iff an entry
with a NONZERO timestamp exists for `id` and `now - t ≤ TTL` (5 minutes); when
a nonzero-timestamp entry has expired (`now - t > TTL`) it is removed from the
store before the call returns false; a zero-timestamp entry yields false with
the entry left in place (treated as absent, no eviction). -/
theorem wasFlaggedRecently_spec (now : Nat) (st : ModState) (id : String) :
    ((wasFlaggedRecently now st id).1 = true ↔
      ∃ t, mapGet st.cacheTimes id = some t ∧ t ≠ 0 ∧
        (now : Int) - (t : Int) ≤ (FLAG_TTL_MS : Int)) ∧
    (∀ t, mapGet st.cacheTimes id = some t → t ≠ 0 →
      (now : Int) - (t : Int) > (FLAG_TTL_MS : Int) →
      (wasFlaggedRecently now st id).2 =
        ModState.mk (setDelete st.flaggedCache id) (mapDelete st.cacheTimes id) ∧
      mapGet (wasFlaggedRecently now st id).2.cacheTimes id = none) ∧
    (∀ t, mapGet st.cacheTimes id = some t → t = 0 →
      wasFlaggedRecently now st id = (false, st)) := by
  refine ⟨⟨?_, ?_⟩, ?_, ?_⟩
  · intro h
    cases hG : mapGet st.cacheTimes id with
    | none =>
      rw [wasFlaggedRecently_none hG] at h
      simp at h
    | some t =>
      by_cases ht0 : t = 0
      · subst ht0
        rw [wasFlaggedRecently_zero hG] at h
        simp at h
      · by_cases hgt : (now : Int) - (t : Int) > (FLAG_TTL_MS : Int)
        · rw [wasFlaggedRecently_expired hG ht0 hgt] at h
          simp at h
        · exact ⟨t, rfl, ht0, by omega⟩
  · rintro ⟨t, hG, ht0, hle⟩
    rw [wasFlaggedRecently_live hG ht0 (by omega)]
  · intro t hG ht0 hgt
    rw [wasFlaggedRecently_expired hG ht0 hgt]
    exact ⟨rfl, mapGet_mapDelete_self st.cacheTimes id⟩
  · intro t hG ht0
    subst ht0
    exact wasFlaggedRecently_zero hG

/-- Claim C10: executing `remember(id)` when the clock reads 0 stores timestamp
0; an immediately following `was_recently_flagged(id)` returns `false` with the
entry left in place, because the falsy stored timestamp is treated as an
absent entry — at clock time 0 the dedupe barrier does not hold for that id. -/
theorem zero_clock_mark_not_observed (st : ModState) (id : String) :
    wasFlaggedRecently 0 (rememberFlagged 0 st id) id = (false, rememberFlagged 0 st id) ∧
    mapGet (rememberFlagged 0 st id).cacheTimes id = some 0 := by
  constructor
  · exact wasFlaggedRecently_zero (mapGet_rememberFlagged 0 st id)
  · exact mapGet_rememberFlagged 0 st id

/-! ### Claims about the dispatcher (C1, C6) -/

/-- Claim C1, counterexample: at clock reading 0, two immediately successive
`postNotice` calls for the same message id both deliver a notice — two
notices, not exactly one. The first call does mark the id via `remember`, but
it stores timestamp 0, which the second call's `was_recently_flagged` treats
as an absent entry. -/
theorem postNotice_zero_clock_double_delivery :
    ((postNotice 0 true (ModState.mk [] [])
        (Msg.mk (some "m1") (some "messaging:room") (some "alice") (some ""))).notice.isSome
      = true) ∧
    ((postNotice 0 true
        (postNotice 0 true (ModState.mk [] [])
          (Msg.mk (some "m1") (some "messaging:room") (some "alice") (some ""))).st
        (Msg.mk (some "m1") (some "messaging:room") (some "alice") (some ""))).notice.isSome
      = true) := by
  decide

/-- Claim C1 (amended): at any NONZERO clock reading `now`, for a message with
a present, non-empty id and conversation id that is not already recently
flagged, calling dispatch twice in immediate succession delivers exactly one
notice: the first call delivers and marks the id via `remember` before the
delivery step (the mark is in place even when delivery fails), and the second
call observes `was_recently_flagged = true` and returns without delivering or
changing state. At clock reading 0 the code stores a falsy timestamp and the
second call delivers again. -/
theorem postNotice_dedupes_second_call (now : Nat) (st : ModState) (msg : Msg)
    (id cid : String) (dOk2 : Bool)
    (hid : msg.id = some id) (hid' : id ≠ "")
    (hcid : msg.cid = some cid) (hcid' : cid ≠ "")
    (hnz : now ≠ 0)
    (hfresh : (wasFlaggedRecently now st id).1 = false) :
    ((postNotice now true st msg).notice.isSome = true) ∧
    (mapGet (postNotice now true st msg).st.cacheTimes id = some now) ∧
    (mapGet (postNotice now false st msg).st.cacheTimes id = some now) ∧
    ((wasFlaggedRecently now (postNotice now true st msg).st id).1 = true) ∧
    (postNotice now dOk2 (postNotice now true st msg).st msg =
      ⟨(postNotice now true st msg).st, none, false⟩) := by
  have hwin : (now : Int) - (now : Int) ≤ (FLAG_TTL_MS : Int) := by
    unfold FLAG_TTL_MS
    omega
  have h1 := postNotice_fresh now true st msg id cid hid hid' hcid hcid' hfresh
  rw [if_pos rfl] at h1
  have h0 := postNotice_fresh now false st msg id cid hid hid' hcid hcid' hfresh
  rw [if_neg (by simp)] at h0
  have hafter := wasFlaggedRecently_after_remember now now
    (wasFlaggedRecently now st id).2 id hnz hwin
  refine ⟨by rw [h1]; rfl, ?_, ?_, ?_, ?_⟩
  · rw [h1]
    exact mapGet_rememberFlagged now (wasFlaggedRecently now st id).2 id
  · rw [h0]
    exact mapGet_rememberFlagged now (wasFlaggedRecently now st id).2 id
  · rw [h1]
    rw [show (PostResult.mk (rememberFlagged now (wasFlaggedRecently now st id).2 id)
      (some ⟨(jsSplit ':' cid).headD "", (jsSplit ':' cid)[1]?, noticeText msg, "system-bot"⟩)
      false).st = rememberFlagged now (wasFlaggedRecently now st id).2 id from rfl]
    rw [hafter]
  · rw [h1]
    have h2 := postNotice_already now dOk2
      (rememberFlagged now (wasFlaggedRecently now st id).2 id) msg id hid hid'
      (by rw [hcid]; exact falsyStr_some_ne hcid')
      (by rw [hafter])
    rw [hafter] at h2
    exact h2

/-- Claim C6, counterexample: for the conversation id `"team:alpha:beta"`
(more than one colon), the delivered notice targets channel id `"alpha"` — the
segment between the first and second colon — not the entire remainder
`"alpha:beta"` after the first colon as the claim states. -/
theorem postNotice_multi_colon_cex :
    ((postNotice 7 true (ModState.mk [] [])
        (Msg.mk (some "m6") (some "team:alpha:beta") (some "u") (some ""))).notice.map
        Notice.chType = some "team") ∧
    ((postNotice 7 true (ModState.mk [] [])
        (Msg.mk (some "m6") (some "team:alpha:beta") (some "u") (some ""))).notice.map
        Notice.chId = some (some "alpha")) ∧
    (("alpha" : String) ≠ "alpha:beta") := by
  decide

/-- Claim C6 (amended): when dispatch delivers a notice for conversation id
`cid`, the target type is the segment of `cid` before the first `:`, and the
channel id is the segment strictly between the first `:` and the next `:`
(`cid.split(':')` takes element 1) — which equals the entire remainder after
the first colon only when that remainder contains no further colon. -/
theorem postNotice_splits_cid_at_colons (now : Nat) (st : ModState) (msg : Msg)
    (id : String) (pre rest : List Char)
    (hid : msg.id = some id) (hid' : id ≠ "")
    (hcid : msg.cid = some (String.mk (pre ++ ':' :: rest)))
    (hpre : ':' ∉ pre)
    (hfresh : (wasFlaggedRecently now st id).1 = false) :
    ∃ n, (postNotice now true st msg).notice = some n ∧
      n.chType = String.mk pre ∧
      n.chId = some (String.mk (rest.takeWhile (fun c => !(c == ':')))) := by
  have hcid' : String.mk (pre ++ ':' :: rest) ≠ "" := by
    intro h
    have hd : pre ++ ':' :: rest = ("" : String).data := by rw [← h]
    simp at hd
  have h1 := postNotice_fresh now true st msg id _ hid hid' hcid hcid' hfresh
  rw [if_pos rfl] at h1
  rw [h1]
  have hsplit : splitCh ':' (String.mk (pre ++ ':' :: rest)).data =
      pre :: splitCh ':' rest := by
    rw [show (String.mk (pre ++ ':' :: rest)).data = pre ++ ':' :: rest from rfl]
    exact splitCh_sep_append ':' pre rest hpre
  obtain ⟨tl, htl⟩ := splitCh_head ':' rest
  refine ⟨_, rfl, ?_, ?_⟩
  · show ((splitCh ':' (String.mk (pre ++ ':' :: rest)).data).map String.mk).headD ""
      = String.mk pre
    rw [hsplit]
    simp
  · show ((splitCh ':' (String.mk (pre ++ ':' :: rest)).data).map String.mk)[1]?
      = some (String.mk (rest.takeWhile (fun c => !(c == ':'))))
    rw [hsplit, htl]
    simp

/-! ### Reduction lemmas for the webhook handler -/

/-- A false dedupe check stays false when repeated on the state it returned
(the check's only side effect is eviction of the entry it just rejected). -/
theorem wasFlaggedRecently_idem_false (now : Nat) (st : ModState) (id : String)
    (h : (wasFlaggedRecently now st id).1 = false) :
    (wasFlaggedRecently now (wasFlaggedRecently now st id).2 id).1 = false := by
  cases hG : mapGet st.cacheTimes id with
  | none =>
    rw [wasFlaggedRecently_none hG]
    show (wasFlaggedRecently now st id).1 = false
    exact h
  | some t =>
    by_cases ht0 : t = 0
    · subst ht0
      rw [wasFlaggedRecently_zero hG]
      show (wasFlaggedRecently now st id).1 = false
      exact h
    · by_cases hgt : (now : Int) - (t : Int) > (FLAG_TTL_MS : Int)
      · rw [wasFlaggedRecently_expired hG ht0 hgt]
        show (wasFlaggedRecently now
          (ModState.mk (setDelete st.flaggedCache id) (mapDelete st.cacheTimes id)) id).1 = false
        rw [wasFlaggedRecently_none (mapGet_mapDelete_self st.cacheTimes id)]
      · rw [wasFlaggedRecently_live hG ht0 hgt] at h
        exact absurd h (by simp)

theorem hook_shape (now : Nat) (env : WebhookEnv) (st : ModState) (input : WebhookInput) :
    ∃ b st2 nt, handleWebhook now env st input = ⟨200, b, st2, nt⟩ ∧
      (b = "ok" ∨ b = "ignored") := by
  cases input with
  | malformed => exact ⟨"ignored", st, none, rfl, Or.inr rfl⟩
  | parsed p =>
    unfold handleWebhook
    repeat' split
    all_goals first
      | exact ⟨_, _, _, rfl, Or.inl rfl⟩
      | exact ⟨_, _, _, rfl, Or.inr rfl⟩

theorem handleWebhook_flagged (now : Nat) (env : WebhookEnv) (st : ModState)
    (p : Payload) (m : Msg)
    (ht : p.type = some "message.flagged") (hm : p.message = some m)
    (hu : m.userId ≠ some "system-bot") (hidok : falsyStr m.id = false) :
    handleWebhook now env st (.parsed p) =
      ⟨200, "ok", (postNotice now env.sendOk st m).st, (postNotice now env.sendOk st m).notice⟩ := by
  simp only [handleWebhook]
  have hg1 : ¬ (p.message.bind Msg.userId = some "system-bot") := by
    rw [hm]
    simpa using hu
  have hg2 : p.type = some "message.flagged" ∧ falsyStr (p.message.bind Msg.id) = false := by
    refine ⟨ht, ?_⟩
    rw [hm]
    simpa using hidok
  rw [if_neg hg1, if_pos hg2]
  simp [hm]

theorem handleWebhook_message_new (now : Nat) (env : WebhookEnv) (st : ModState)
    (p : Payload) (m : Msg) (id text : String)
    (ht : p.type = some "message.new") (hm : p.message = some m)
    (hu : m.userId ≠ some "system-bot")
    (hid : m.id = some id) (hid' : id ≠ "")
    (htext : m.text = some text)
    (hprof : profanityTest text = true)
    (hfresh : (wasFlaggedRecently now st id).1 = false) :
    handleWebhook now env st (.parsed p) =
      if env.flagOk then
        ⟨200, "ok", (postNotice now env.sendOk (wasFlaggedRecently now st id).2 m).st,
         (postNotice now env.sendOk (wasFlaggedRecently now st id).2 m).notice⟩
      else ⟨200, "ok", (wasFlaggedRecently now st id).2, none⟩ := by
  simp only [handleWebhook]
  have hg1 : ¬ (p.message.bind Msg.userId = some "system-bot") := by
    rw [hm]
    simpa using hu
  have hg2 : ¬ (p.type = some "message.flagged" ∧ falsyStr (p.message.bind Msg.id) = false) := by
    rintro ⟨h1, _⟩
    rw [ht, Option.some.injEq] at h1
    exact absurd h1 (by decide)
  have hg3 : p.type = some "message.new" ∧ falsyStr (p.message.bind Msg.id) = false
      ∧ (p.message.bind Msg.text).isSome = true := by
    refine ⟨ht, ?_, ?_⟩
    · rw [hm]
      simpa [hid] using falsyStr_some_ne hid'
    · rw [hm]
      simp [htext]
  rw [if_neg hg1, if_neg hg2, if_pos hg3]
  simp only [hm, Option.getD_some, htext, hid]
  rw [if_pos hprof]
  rcases hE : wasFlaggedRecently now st id with ⟨b, st1⟩
  rw [hE] at hfresh
  simp only at hfresh
  subst hfresh
  simp

/-! ### Claims about the webhook boundary (C3, C5, C2, C7) -/

/-- Claim C3: every inbound webhook payload — including one whose raw body
fails to parse as JSON — is answered with HTTP 200 and a body that is either
`"ok"` or `"ignored"`; a parse failure is classified as Ignorable (body
`"ignored"`, state untouched, no notice) and never propagates a failure
status. -/
theorem webhook_always_acks (now : Nat) (env : WebhookEnv) (st : ModState)
    (input : WebhookInput) :
    ((handleWebhook now env st input).status = 200 ∧
     ((handleWebhook now env st input).body = "ok" ∨
      (handleWebhook now env st input).body = "ignored")) ∧
    handleWebhook now env st .malformed = ⟨200, "ignored", st, none⟩ := by
  obtain ⟨b, st2, nt, hEq, hb⟩ := hook_shape now env st input
  refine ⟨⟨by rw [hEq], ?_⟩, rfl⟩
  cases hb with
  | inl h => exact Or.inl (by rw [hEq, h])
  | inr h => exact Or.inr (by rw [hEq, h])

/-- Claim C5: any parsed event whose message author id is the reserved system
identity `"system-bot"` is answered `"ignored"` with the state untouched and
no notice dispatched, regardless of every other field of the payload. -/
theorem system_author_classified_ignorable (now : Nat) (env : WebhookEnv) (st : ModState)
    (p : Payload) (m : Msg)
    (hm : p.message = some m) (hu : m.userId = some "system-bot") :
    handleWebhook now env st (.parsed p) = ⟨200, "ignored", st, none⟩ := by
  simp only [handleWebhook]
  rw [if_pos (show p.message.bind Msg.userId = some "system-bot" from by rw [hm]; simpa using hu)]

theorem system_author_classified_ignorable_witness :
    ((Payload.mk (some "message.flagged")
        (some (Msg.mk (some "mX") (some "messaging:general") (some "system-bot") (some "hi")))
        (some (AiItem.mk (some "mX") (some "flag")))).message
      = some (Msg.mk (some "mX") (some "messaging:general") (some "system-bot") (some "hi"))) ∧
    ((Msg.mk (some "mX") (some "messaging:general") (some "system-bot") (some "hi")).userId
      = some "system-bot") ∧
    handleWebhook 5 (WebhookEnv.mk true true (GetMsgResult.success none)) (ModState.mk [] [])
      (.parsed (Payload.mk (some "message.flagged")
        (some (Msg.mk (some "mX") (some "messaging:general") (some "system-bot") (some "hi")))
        (some (AiItem.mk (some "mX") (some "flag"))))) =
      ⟨200, "ignored", ModState.mk [] [], none⟩ :=
  ⟨rfl, rfl,
    system_author_classified_ignorable 5 (WebhookEnv.mk true true (GetMsgResult.success none))
      (ModState.mk [] [])
      (Payload.mk (some "message.flagged")
        (some (Msg.mk (some "mX") (some "messaging:general") (some "system-bot") (some "hi")))
        (some (AiItem.mk (some "mX") (some "flag"))))
      (Msg.mk (some "mX") (some "messaging:general") (some "system-bot") (some "hi"))
      rfl rfl⟩

/-- Claim C2, counterexample: for a genuine heuristic candidate (type
`message.new`, id `"m2"`, text `"fuck"` matching the heuristic, nothing
flagged yet), when the flag-registration call fails no notice is dispatched —
`flagMessage` and `postNotice` share one `try`, so the failure aborts both —
while the identical request with a succeeding registration does dispatch. -/
theorem heuristic_flag_failure_cex :
    ((handleWebhook 1000 (WebhookEnv.mk false true (GetMsgResult.success none))
        (ModState.mk [] [])
        (.parsed (Payload.mk (some "message.new")
          (some (Msg.mk (some "m2") (some "messaging:general") (some "alice") (some "fuck")))
          none))).notice = none) ∧
    ((handleWebhook 1000 (WebhookEnv.mk true true (GetMsgResult.success none))
        (ModState.mk [] [])
        (.parsed (Payload.mk (some "message.new")
          (some (Msg.mk (some "m2") (some "messaging:general") (some "alice") (some "fuck")))
          none))).notice.isSome = true) ∧
    (profanityTest "fuck" = true) := by
  decide

/-- Claim C2 (amended): for a HeuristicCandidate event (type `"message.new"`,
message id and text present, text matching the profanity heuristic, id not
recently flagged), dispatch is preceded by the flag-registration call to the
collaborator, and a failure of that call is caught and logged and PREVENTS the
notice from being dispatched — the shared try-block aborts before `postNotice`
runs, leaving the dedupe state unmarked; when registration (and delivery)
succeed, the notice is dispatched. -/
theorem heuristic_flag_failure_blocks_notice (now : Nat) (st : ModState)
    (p : Payload) (m : Msg) (id cid text : String) (sendOk : Bool) (g : GetMsgResult)
    (ht : p.type = some "message.new") (hm : p.message = some m)
    (hu : m.userId ≠ some "system-bot")
    (hid : m.id = some id) (hid' : id ≠ "")
    (hcid : m.cid = some cid) (hcid' : cid ≠ "")
    (htext : m.text = some text)
    (hprof : profanityTest text = true)
    (hfresh : (wasFlaggedRecently now st id).1 = false) :
    (handleWebhook now (WebhookEnv.mk false sendOk g) st (.parsed p) =
      ⟨200, "ok", (wasFlaggedRecently now st id).2, none⟩) ∧
    ((handleWebhook now (WebhookEnv.mk true true g) st (.parsed p)).notice.isSome = true) := by
  constructor
  · rw [handleWebhook_message_new now (WebhookEnv.mk false sendOk g) st p m id text
      ht hm hu hid hid' htext hprof hfresh]
    rfl
  · rw [handleWebhook_message_new now (WebhookEnv.mk true true g) st p m id text
      ht hm hu hid hid' htext hprof hfresh]
    have hfresh2 := wasFlaggedRecently_idem_false now st id hfresh
    have hp := postNotice_fresh now true (wasFlaggedRecently now st id).2 m id cid
      hid hid' hcid hcid' hfresh2
    rw [if_pos rfl] at hp
    show (postNotice now true (wasFlaggedRecently now st id).2 m).notice.isSome = true
    rw [hp]
    rfl

/-- Claim C7, counterexample: a delivery failure at clock reading 0 marks the
id with the falsy timestamp 0, so a duplicate 50 ms later (well inside the
TTL) observes `was_recently_flagged = false` and DOES retry the delivery —
the claim's "does not retry" fails at clock 0. -/
theorem failed_delivery_zero_clock_retry_cex :
    ((postNotice 0 false (ModState.mk [] [])
        (Msg.mk (some "m7") (some "messaging:r") (some "bob") (some ""))).notice = none) ∧
    ((postNotice 0 false (ModState.mk [] [])
        (Msg.mk (some "m7") (some "messaging:r") (some "bob") (some ""))).threw = true) ∧
    (mapGet (postNotice 0 false (ModState.mk [] [])
        (Msg.mk (some "m7") (some "messaging:r") (some "bob") (some ""))).st.cacheTimes "m7"
      = some 0) ∧
    ((wasFlaggedRecently 50 (postNotice 0 false (ModState.mk [] [])
        (Msg.mk (some "m7") (some "messaging:r") (some "bob") (some ""))).st "m7").1 = false) ∧
    ((postNotice 50 true (postNotice 0 false (ModState.mk [] [])
        (Msg.mk (some "m7") (some "messaging:r") (some "bob") (some ""))).st
        (Msg.mk (some "m7") (some "messaging:r") (some "bob") (some ""))).notice.isSome
      = true) := by
  decide

/-- Claim C7 (amended): when delivery of a notice fails after the message id
was marked at a NONZERO clock reading, the mark persists (the id maps to the
mark time), a later duplicate within the TTL window observes
`was_recently_flagged = true` and does not retry the delivery (at-most-once,
not guaranteed delivery), and the delivery failure does not alter the webhook
acknowledgment (the `message.flagged` handler still answers 200 `"ok"`). A
mark stored at clock reading 0 is falsy and a duplicate does retry. -/
theorem failed_delivery_not_retried (now now2 : Nat) (st : ModState) (msg : Msg)
    (id cid : String) (dOk2 : Bool) (p : Payload)
    (hid : msg.id = some id) (hid' : id ≠ "")
    (hcid : msg.cid = some cid) (hcid' : cid ≠ "")
    (hnz : now ≠ 0) (hfresh : (wasFlaggedRecently now st id).1 = false)
    (hwin : (now2 : Int) - (now : Int) ≤ (FLAG_TTL_MS : Int))
    (ht : p.type = some "message.flagged") (hm : p.message = some msg)
    (hu : msg.userId ≠ some "system-bot") :
    ((postNotice now false st msg).notice = none) ∧
    ((postNotice now false st msg).threw = true) ∧
    (mapGet (postNotice now false st msg).st.cacheTimes id = some now) ∧
    (wasFlaggedRecently now2 (postNotice now false st msg).st id =
      (true, (postNotice now false st msg).st)) ∧
    (postNotice now2 dOk2 (postNotice now false st msg).st msg =
      ⟨(postNotice now false st msg).st, none, false⟩) ∧
    ((handleWebhook now (WebhookEnv.mk true false (GetMsgResult.success none)) st
        (.parsed p)).status = 200 ∧
     (handleWebhook now (WebhookEnv.mk true false (GetMsgResult.success none)) st
        (.parsed p)).body = "ok" ∧
     (handleWebhook now (WebhookEnv.mk true false (GetMsgResult.success none)) st
        (.parsed p)).notice = none) := by
  have hp0 := postNotice_fresh now false st msg id cid hid hid' hcid hcid' hfresh
  rw [if_neg (by simp)] at hp0
  have hafter := wasFlaggedRecently_after_remember now now2
    (wasFlaggedRecently now st id).2 id hnz hwin
  refine ⟨by rw [hp0], by rw [hp0], ?_, ?_, ?_, ?_⟩
  · rw [hp0]
    exact mapGet_rememberFlagged now (wasFlaggedRecently now st id).2 id
  · rw [hp0]
    exact hafter
  · rw [hp0]
    have h2 := postNotice_already now2 dOk2
      (rememberFlagged now (wasFlaggedRecently now st id).2 id) msg id hid hid'
      (by rw [hcid]; exact falsyStr_some_ne hcid')
      (by rw [hafter])
    rw [hafter] at h2
    exact h2
  · rw [handleWebhook_flagged now (WebhookEnv.mk true false (GetMsgResult.success none))
      st p msg ht hm hu (by rw [hid]; exact falsyStr_some_ne hid')]
    refine ⟨rfl, rfl, ?_⟩
    show (postNotice now false st msg).notice = none
    rw [hp0]

/-! ### Concrete witnesses for the conditional claim theorems -/

theorem postNotice_dedupes_second_call_witness :
    ((Msg.mk (some "m1") (some "messaging:room") (some "alice") (some "hi")).id = some "m1") ∧
    ("m1" ≠ "") ∧
    ((Msg.mk (some "m1") (some "messaging:room") (some "alice") (some "hi")).cid
      = some "messaging:room") ∧
    ("messaging:room" ≠ "") ∧
    ((1000 : Nat) ≠ 0) ∧
    ((wasFlaggedRecently 1000 (ModState.mk [] []) "m1").1 = false) ∧
    (((postNotice 1000 true (ModState.mk [] [])
        (Msg.mk (some "m1") (some "messaging:room") (some "alice") (some "hi"))).notice.isSome
      = true) ∧
     (mapGet (postNotice 1000 true (ModState.mk [] [])
        (Msg.mk (some "m1") (some "messaging:room") (some "alice") (some "hi"))).st.cacheTimes
        "m1" = some 1000) ∧
     (mapGet (postNotice 1000 false (ModState.mk [] [])
        (Msg.mk (some "m1") (some "messaging:room") (some "alice") (some "hi"))).st.cacheTimes
        "m1" = some 1000) ∧
     ((wasFlaggedRecently 1000 (postNotice 1000 true (ModState.mk [] [])
        (Msg.mk (some "m1") (some "messaging:room") (some "alice") (some "hi"))).st "m1").1
      = true) ∧
     (postNotice 1000 true (postNotice 1000 true (ModState.mk [] [])
        (Msg.mk (some "m1") (some "messaging:room") (some "alice") (some "hi"))).st
        (Msg.mk (some "m1") (some "messaging:room") (some "alice") (some "hi")) =
       ⟨(postNotice 1000 true (ModState.mk [] [])
          (Msg.mk (some "m1") (some "messaging:room") (some "alice") (some "hi"))).st,
        none, false⟩)) :=
  ⟨rfl, by decide, rfl, by decide, by decide, by decide,
   postNotice_dedupes_second_call 1000 (ModState.mk [] [])
     (Msg.mk (some "m1") (some "messaging:room") (some "alice") (some "hi"))
     "m1" "messaging:room" true rfl (by decide) rfl (by decide) (by decide) (by decide)⟩

theorem heuristic_flag_failure_blocks_notice_witness :
    ((Payload.mk (some "message.new")
        (some (Msg.mk (some "m2") (some "messaging:general") (some "alice") (some "fuck")))
        none).type = some "message.new") ∧
    ((Payload.mk (some "message.new")
        (some (Msg.mk (some "m2") (some "messaging:general") (some "alice") (some "fuck")))
        none).message
      = some (Msg.mk (some "m2") (some "messaging:general") (some "alice") (some "fuck"))) ∧
    ((Msg.mk (some "m2") (some "messaging:general") (some "alice") (some "fuck")).userId
      ≠ some "system-bot") ∧
    (profanityTest "fuck" = true) ∧
    ((wasFlaggedRecently 1000 (ModState.mk [] []) "m2").1 = false) ∧
    ((handleWebhook 1000 (WebhookEnv.mk false true (GetMsgResult.success none))
        (ModState.mk [] [])
        (.parsed (Payload.mk (some "message.new")
          (some (Msg.mk (some "m2") (some "messaging:general") (some "alice") (some "fuck")))
          none)) =
      ⟨200, "ok", (wasFlaggedRecently 1000 (ModState.mk [] []) "m2").2, none⟩) ∧
     ((handleWebhook 1000 (WebhookEnv.mk true true (GetMsgResult.success none))
        (ModState.mk [] [])
        (.parsed (Payload.mk (some "message.new")
          (some (Msg.mk (some "m2") (some "messaging:general") (some "alice") (some "fuck")))
          none))).notice.isSome = true)) :=
  ⟨rfl, rfl, by decide, by decide, by decide,
   heuristic_flag_failure_blocks_notice 1000 (ModState.mk [] [])
     (Payload.mk (some "message.new")
       (some (Msg.mk (some "m2") (some "messaging:general") (some "alice") (some "fuck")))
       none)
     (Msg.mk (some "m2") (some "messaging:general") (some "alice") (some "fuck"))
     "m2" "messaging:general" "fuck" true (GetMsgResult.success none)
     rfl rfl (by decide) rfl (by decide) rfl (by decide) rfl (by decide) (by decide)⟩

theorem postNotice_splits_cid_at_colons_witness :
    ((Msg.mk (some "m6")
        (some (String.mk (['t', 'e', 'a', 'm'] ++ ':' :: ['a', 'l', 'p', 'h', 'a'])))
        (some "u") (some "")).id = some "m6") ∧
    ("m6" ≠ "") ∧
    ((Msg.mk (some "m6")
        (some (String.mk (['t', 'e', 'a', 'm'] ++ ':' :: ['a', 'l', 'p', 'h', 'a'])))
        (some "u") (some "")).cid
      = some (String.mk (['t', 'e', 'a', 'm'] ++ ':' :: ['a', 'l', 'p', 'h', 'a']))) ∧
    (':' ∉ ['t', 'e', 'a', 'm']) ∧
    ((wasFlaggedRecently 3 (ModState.mk [] []) "m6").1 = false) ∧
    (∃ n, (postNotice 3 true (ModState.mk [] [])
        (Msg.mk (some "m6")
          (some (String.mk (['t', 'e', 'a', 'm'] ++ ':' :: ['a', 'l', 'p', 'h', 'a'])))
          (some "u") (some ""))).notice = some n ∧
      n.chType = String.mk ['t', 'e', 'a', 'm'] ∧
      n.chId = some (String.mk (['a', 'l', 'p', 'h', 'a'].takeWhile (fun c => !(c == ':'))))) :=
  ⟨rfl, by decide, rfl, by decide, by decide,
   postNotice_splits_cid_at_colons 3 (ModState.mk [] [])
     (Msg.mk (some "m6")
       (some (String.mk (['t', 'e', 'a', 'm'] ++ ':' :: ['a', 'l', 'p', 'h', 'a'])))
       (some "u") (some ""))
     "m6" ['t', 'e', 'a', 'm'] ['a', 'l', 'p', 'h', 'a']
     rfl (by decide) rfl (by decide) (by decide)⟩

theorem failed_delivery_not_retried_witness :
    ((Msg.mk (some "m7") (some "messaging:r") (some "bob") (some "x")).id = some "m7") ∧
    ("m7" ≠ "") ∧
    ((Msg.mk (some "m7") (some "messaging:r") (some "bob") (some "x")).cid
      = some "messaging:r") ∧
    ("messaging:r" ≠ "") ∧
    ((1000 : Nat) ≠ 0) ∧
    ((wasFlaggedRecently 1000 (ModState.mk [] []) "m7").1 = false) ∧
    ((1500 : Int) - (1000 : Int) ≤ (FLAG_TTL_MS : Int)) ∧
    ((Payload.mk (some "message.flagged")
        (some (Msg.mk (some "m7") (some "messaging:r") (some "bob") (some "x"))) none).type
      = some "message.flagged") ∧
    ((Payload.mk (some "message.flagged")
        (some (Msg.mk (some "m7") (some "messaging:r") (some "bob") (some "x"))) none).message
      = some (Msg.mk (some "m7") (some "messaging:r") (some "bob") (some "x"))) ∧
    ((Msg.mk (some "m7") (some "messaging:r") (some "bob") (some "x")).userId
      ≠ some "system-bot") ∧
    (((postNotice 1000 false (ModState.mk [] [])
        (Msg.mk (some "m7") (some "messaging:r") (some "bob") (some "x"))).notice = none) ∧
     ((postNotice 1000 false (ModState.mk [] [])
        (Msg.mk (some "m7") (some "messaging:r") (some "bob") (some "x"))).threw = true) ∧
     (mapGet (postNotice 1000 false (ModState.mk [] [])
        (Msg.mk (some "m7") (some "messaging:r") (some "bob") (some "x"))).st.cacheTimes "m7"
       = some 1000) ∧
     (wasFlaggedRecently 1500 (postNotice 1000 false (ModState.mk [] [])
        (Msg.mk (some "m7") (some "messaging:r") (some "bob") (some "x"))).st "m7" =
       (true, (postNotice 1000 false (ModState.mk [] [])
         (Msg.mk (some "m7") (some "messaging:r") (some "bob") (some "x"))).st)) ∧
     (postNotice 1500 true (postNotice 1000 false (ModState.mk [] [])
        (Msg.mk (some "m7") (some "messaging:r") (some "bob") (some "x"))).st
        (Msg.mk (some "m7") (some "messaging:r") (some "bob") (some "x")) =
       ⟨(postNotice 1000 false (ModState.mk [] [])
          (Msg.mk (some "m7") (some "messaging:r") (some "bob") (some "x"))).st,
        none, false⟩) ∧
     ((handleWebhook 1000 (WebhookEnv.mk true false (GetMsgResult.success none))
        (ModState.mk [] [])
        (.parsed (Payload.mk (some "message.flagged")
          (some (Msg.mk (some "m7") (some "messaging:r") (some "bob") (some "x"))) none))).status
       = 200 ∧
      (handleWebhook 1000 (WebhookEnv.mk true false (GetMsgResult.success none))
        (ModState.mk [] [])
        (.parsed (Payload.mk (some "message.flagged")
          (some (Msg.mk (some "m7") (some "messaging:r") (some "bob") (some "x"))) none))).body
       = "ok" ∧
      (handleWebhook 1000 (WebhookEnv.mk true false (GetMsgResult.success none))
        (ModState.mk [] [])
        (.parsed (Payload.mk (some "message.flagged")
          (some (Msg.mk (some "m7") (some "messaging:r") (some "bob") (some "x"))) none))).notice
       = none)) :=
  ⟨rfl, by decide, rfl, by decide, by decide, by decide, by decide, rfl, rfl, by decide,
   failed_delivery_not_retried 1000 1500 (ModState.mk [] [])
     (Msg.mk (some "m7") (some "messaging:r") (some "bob") (some "x"))
     "m7" "messaging:r" true
     (Payload.mk (some "message.flagged")
       (some (Msg.mk (some "m7") (some "messaging:r") (some "bob") (some "x"))) none)
     rfl (by decide) rfl (by decide) (by decide) (by decide) (by decide) rfl rfl (by decide)⟩

end ModerationRelay
